import Mathlib

/-!
Verification of the eligibility classification and deduplication engine of
`analyze_full.py`.

The Python source is shallowly embedded as executable Lean definitions:

* nullable dataframe cells (`NaN` / `None`) become `Option` values;
* `determine_qualification` becomes a pure function over a `Row`;
* the pandas duplicate detection (`duplicated`, `groupby().ngroup()`,
  `groupby().cumcount()`, `sort_values`) becomes explicit list functions;
* `check_profile` becomes a function of the list of attempt outcomes
  (the network is the only external input);
* the per-record loop body of `main` becomes `processRecord`;
* the summary percentage computations of `main` become `summaryStats`,
  where an unguarded Python division is modelled as `Option` (the `none`
  case corresponds to a raised `ZeroDivisionError`).

Theorems about these definitions settle the frozen claims C1 - C10.
-/

/-! ## Nullable-cell helpers (pandas semantics) -/

/-- Truthiness-respecting test used by the source as
`badge_count == 0 or pd.isna(badge_count)`. -/
def zeroOrAbsent : Option Nat → Bool
  | some n => n == 0
  | none => true

/-- Test used by the source as `pd.isna(league) or league == ""`. -/
def absentOrEmpty : Option String → Bool
  | some s => s == ""
  | none => true

/-- Python `x > 1` where `x` may be `NaN` (`NaN > 1` is `False`). -/
def optGt1 : Option Nat → Bool
  | some n => 1 < n
  | none => false

/-- Python truthiness-guarded `creation_year and creation_year < 2025`. -/
def truthyPre2025 : Option Nat → Bool
  | some y => y != 0 && y < 2025
  | none => false

/-- Python `if badge_count and badge_count > 0`. -/
def positiveBadge : Option Nat → Bool
  | some n => n != 0 && 0 < n
  | none => false

/-- Python f-string rendering of a possibly absent number. -/
def optNatStr : Option Nat → String
  | some n => toString n
  | none => "None"

/-- Python `x or 0` for a possibly absent count. -/
def orZero : Option Nat → Nat
  | some n => n
  | none => 0

/-- The whitespace characters removed by Python `str.strip()`. -/
def pySpace (c : Char) : Bool :=
  c == ' ' || c == '\t' || c == '\n' || c == '\r' || c == '\x0b' || c == '\x0c'

/-- Python `str.strip()`: drop whitespace from both ends. -/
def pyStrip (l : List Char) : List Char :=
  ((l.dropWhile pySpace).reverse.dropWhile pySpace).reverse

/-- Python `pd.isna(url) or url.strip() == ''`. -/
def blankUrl : Option String → Bool
  | some s => (pyStrip s.toList).isEmpty
  | none => true

/-- pandas element-wise `==` on two nullable cells (`NaN == anything` is
`False`, used by line 187 `df['Email Address'] == df['Skills Boost Email']`). -/
def cellEq : Option String → Option String → Bool
  | some a, some b => a == b
  | _, _ => false

/-! ## The reserved-domain test (line 188)

The source computes `df['Email Address'].str.contains('.gdgocbcet@gmail.com',
na=False)`.  With the default `regex=True` this is a regular-expression
*search*: the two dots are wildcards matching any character except a newline,
and the pattern may occur anywhere inside the string, not only as a suffix. -/

/-- A regex `.` (any character except newline). -/
def reWild (c : Char) : Bool := c != '\n'

/-- The literal run between the two wildcard dots of the pattern. -/
def gdgLit : List Char := ['g', 'd', 'g', 'o', 'c', 'b', 'c', 'e', 't', '@', 'g', 'm', 'a', 'i', 'l']

/-- The literal tail of the pattern. -/
def comLit : List Char := ['c', 'o', 'm']

/-- Match of the trailing `.com` part of the pattern at the head of a list. -/
def matchDotCom : List Char → Bool
  | c :: rest => reWild c && comLit.isPrefixOf rest
  | [] => false

/-- Match of the whole pattern `.gdgocbcet@gmail.com` at the head of a list. -/
def matchGdgAt : List Char → Bool
  | c :: rest => reWild c && gdgLit.isPrefixOf rest && matchDotCom (rest.drop 15)
  | [] => false

/-- `re.search` of the pattern: try every start position. -/
def searchGdgList : List Char → Bool
  | [] => false
  | c :: rest => matchGdgAt (c :: rest) || searchGdgList rest

/-- Line 188/189: `.str.contains('.gdgocbcet@gmail.com', na=False)`. -/
def hasGdgDomain : Option String → Bool
  | some s => searchGdgList s.toList
  | none => false

/-- The predicate in the words of the specification: the reserved domain is
the domain suffix of the email.  Kept separate from `hasGdgDomain`, which is
translated from the source, so the two can be compared. -/
def specReservedSuffix (s : String) : Bool :=
  "gdgocbcet@gmail.com".toList.isSuffixOf s.toList

/-! ## Data model -/

/-- One raw registration record, with the CSV columns the engine reads.
`none` models a missing value (pandas `NaN`). `termsPresent` models
whether the `Terms` column exists at all (`'Terms' in row`). -/
structure RawRecord where
  name : Option String
  emailAddress : Option String
  skillsBoostEmail : Option String
  phoneNumber : Option String
  termsPresent : Bool
  terms : Option String
  profileURL : Option String
deriving DecidableEq, Repr

/-- Profile evidence as returned by `check_profile` (lines 73-94). -/
structure Evidence where
  creation_date : Option String
  creation_year : Option Nat
  badge_count : Option Nat
  league : Option String
  points : Option Nat
  status : String
deriving DecidableEq, Repr

/-- The content fields parsed out of a successfully fetched page
(lines 41-71); each parse miss leaves the field null, while
`badge_count` is always a count (line 54). -/
structure ParsedProfile where
  creation_date : Option String
  creation_year : Option Nat
  badge_count : Nat
  league : Option String
  points : Option Nat
deriving DecidableEq, Repr

/-- A dataframe row as seen by `determine_qualification`: the raw columns
plus the derived duplicate, email and profile columns added by `main`. -/
structure Row where
  name : Option String
  emailAddress : Option String
  skillsBoostEmail : Option String
  phoneNumber : Option String
  termsPresent : Bool
  terms : Option String
  profileURL : Option String
  is_duplicate : Bool
  duplicate_group : Option Nat
  duplicate_position : Option Nat
  email_matches : Bool
  email_has_gdg_domain : Bool
  skillsboost_has_gdg_domain : Bool
  profile_creation_year : Option Nat
  profile_badge_count : Option Nat
  profile_league : Option String
  profile_points : Option Nat
  profile_status : Option String
  qualification_status : Option String
  qualification_reason : Option String
deriving DecidableEq, Repr

/-! ## The qualification rule engine (lines 97-165) -/

/-- The exact accepted-consent string of line 107. -/
def acceptedTerms : String := "Yes, I accept the terms"

/-- Rule 1 condition (lines 102-103). -/
def incompleteCond (row : Row) : Bool :=
  row.name.isNone || row.emailAddress.isNone ||
    row.skillsBoostEmail.isNone || row.phoneNumber.isNone

/-- Rule 2 condition (line 107). -/
def termsDeclinedCond (row : Row) : Bool :=
  row.termsPresent && row.terms != some acceptedTerms

/-- Rule 3 condition (line 111). -/
def noUrlCond (row : Row) : Bool :=
  blankUrl row.profileURL

/-- Rule 4 condition (line 125). -/
def duplicateCond (row : Row) : Bool :=
  row.is_duplicate && optGt1 row.duplicate_position

/-- Rule 5 condition (lines 129-133). -/
def hardQualCond (row : Row) : Bool :=
  row.email_has_gdg_domain && row.profile_creation_year == some 2025 &&
    zeroOrAbsent row.profile_badge_count && zeroOrAbsent row.profile_points &&
    absentOrEmpty row.profile_league

/-- Rule 6 condition (lines 137-141). -/
def tier2Cond (row : Row) : Bool :=
  row.email_matches && row.profile_creation_year == some 2025 &&
    zeroOrAbsent row.profile_badge_count && absentOrEmpty row.profile_league &&
    zeroOrAbsent row.profile_points

/-- Rule 7 condition (line 145). -/
def flaggedCond (row : Row) : Bool :=
  !row.email_matches && row.skillsboost_has_gdg_domain

/-- Rule 8 condition (line 149). -/
def disqualCond (row : Row) : Bool :=
  positiveBadge row.profile_badge_count

/-- Rule 9 condition (lines 153-156). -/
def cautionCond (row : Row) : Bool :=
  truthyPre2025 row.profile_creation_year && zeroOrAbsent row.profile_badge_count &&
    absentOrEmpty row.profile_league && zeroOrAbsent row.profile_points

/-- `determine_qualification` (lines 97-165), the ordered first-match-wins
rule chain producing a status and a reason. -/
def determine_qualification (row : Row) : String × String :=
  if incompleteCond row then
    ("INCOMPLETE_REGISTRATION", "Missing required fields (Name, Email, or Phone)")
  else if termsDeclinedCond row then
    ("TERMS_DECLINED", "Terms and conditions not accepted")
  else if noUrlCond row then
    ("NO_PROFILE_URL", "Skills Boost profile URL missing")
  else if duplicateCond row then
    ("DUPLICATE_ENTRY", "Duplicate entry #" ++ optNatStr row.duplicate_position ++ " for same phone number")
  else if hardQualCond row then
    ("HARD_QUALIFIED", "GDG domain + 2025 creation + empty profile")
  else if tier2Cond row then
    ("QUALIFIED_TIER2", "Matching emails + 2025 creation + empty profile")
  else if flaggedCond row then
    ("FLAGGED_DIFF_ACCOUNT", "Different email but Skills Boost has GDG domain")
  else if disqualCond row then
    ("DISQUALIFIED", "Has " ++ optNatStr row.profile_badge_count ++ " badges")
  else if cautionCond row then
    ("CAUTION_PRE2025", "Created in " ++ optNatStr row.profile_creation_year ++ " but empty profile")
  else if row.profile_creation_year == some 2025 then
    ("REVIEW_NEEDED", "2025 account with " ++ toString (orZero row.profile_badge_count) ++ " badges, " ++ toString (orZero row.profile_points) ++ " points")
  else if truthyPre2025 row.profile_creation_year then
    ("REVIEW_PRE2025", "Pre-2025 account (" ++ optNatStr row.profile_creation_year ++ ") needs review")
  else
    ("UNKNOWN", "Could not determine profile details")

/-- The closed enumeration of verdict statuses. -/
def statusList : List String :=
  ["INCOMPLETE_REGISTRATION", "TERMS_DECLINED", "NO_PROFILE_URL", "DUPLICATE_ENTRY",
   "HARD_QUALIFIED", "QUALIFIED_TIER2", "FLAGGED_DIFF_ACCOUNT", "DISQUALIFIED",
   "CAUTION_PRE2025", "REVIEW_NEEDED", "REVIEW_PRE2025", "UNKNOWN"]

/-! ## The profile evidence collector (lines 29-94)

The loop body either returns a success `Evidence` (parsing never fails on a
fetched page, lines 41-80), or raises; on the last attempt the handler
returns the all-null error `Evidence` (lines 87-93).  The network is
external, so `check_profile` is a function of the per-attempt outcomes:
one `Except` value per attempt, `max_retries` many.  The Python function
falls off the loop (returns `None`) when there are no attempts at all. -/

/-- The success value built at lines 73-80. -/
def successEvidence (p : ParsedProfile) : Evidence :=
  { creation_date := p.creation_date, creation_year := p.creation_year,
    badge_count := some p.badge_count, league := p.league, points := p.points,
    status := "success" }

/-- The error value built at lines 87-93. -/
def errorEvidence (msg : String) : Evidence :=
  { creation_date := none, creation_year := none, badge_count := none,
    league := none, points := none, status := "error: " ++ msg }

/-- `check_profile` on the list of attempt outcomes. -/
def check_profile : List (Except String ParsedProfile) → Option Evidence
  | [] => none
  | (Except.ok p) :: _ => some (successEvidence p)
  | [Except.error e] => some (errorEvidence e)
  | (Except.error _) :: a :: rest => check_profile (a :: rest)

/-! ## The per-record loop body of `main` (lines 201-238) -/

/-- Lines 225-229: merge fetched evidence into the dataframe row. -/
def setEvidence (row : Row) (ev : Evidence) : Row :=
  { row with profile_creation_year := ev.creation_year,
             profile_badge_count := ev.badge_count,
             profile_league := ev.league,
             profile_points := ev.points,
             profile_status := some ev.status }

/-- The statuses that skip profile checking (line 208). -/
def skip3 : List String :=
  ["INCOMPLETE_REGISTRATION", "TERMS_DECLINED", "NO_PROFILE_URL"]

/-- One iteration of the loop of lines 201-238 for one record.  The fetched
evidence is a parameter (the network is external).  Returns the updated row
and whether a profile fetch was performed. -/
def processRecord (fetch : Evidence) (row : Row) : Row × Bool :=
  let sr := determine_qualification row
  if skip3.contains sr.1 then
    ({ row with qualification_status := some sr.1,
                qualification_reason := some sr.2,
                profile_status := some "skipped" }, false)
  else
    let row1 := if sr.1 == "DUPLICATE_ENTRY" then
        { row with qualification_status := some sr.1, qualification_reason := some sr.2 }
      else row
    if !(blankUrl row.profileURL) then
      let row2 := setEvidence row1 fetch
      if sr.1 != "DUPLICATE_ENTRY" then
        let sr2 := determine_qualification row2
        ({ row2 with qualification_status := some sr2.1, qualification_reason := some sr2.2 }, true)
      else
        (row2, true)
    else
      (row1, false)

/-! ## The record grouper (lines 174-179)

`df.duplicated(subset=['Phone Number'], keep=False)` marks every member of a
phone-value class of size at least two, and pandas `duplicated` treats `NaN`
cells as equal to each other.  `df.groupby('Phone Number')`, by contrast,
drops `NaN` keys (default `dropna=True`), so `ngroup()` and `cumcount()`
leave null group ids and positions on rows with a missing phone.  With the
default `sort=True`, `ngroup()` numbers the groups in the sorted order of
their keys. -/

/-- Cell equality as used by pandas `duplicated`: `NaN` equals `NaN`. -/
def nanEq : Option String → Option String → Bool
  | none, none => true
  | some a, some b => a == b
  | _, _ => false

/-- Number of cells of the column equal (in the `duplicated` sense) to `p`. -/
def countPhone (phones : List (Option String)) (p : Option String) : Nat :=
  (phones.filter (fun q => nanEq q p)).length

/-- `duplicated(subset=['Phone Number'], keep=False)` for one cell. -/
def dupFlag (phones : List (Option String)) (p : Option String) : Bool :=
  decide (2 ≤ countPhone phones p)

/-- Code-point lexicographic strict order on character lists, the order by
which pandas sorts the string group keys. -/
def strLtChars : List Char → List Char → Bool
  | [], [] => false
  | [], _ :: _ => true
  | _ :: _, [] => false
  | a :: as, b :: bs =>
    if a.toNat < b.toNat then true
    else if b.toNat < a.toNat then false
    else strLtChars as bs

/-- Strict order on the string keys themselves. -/
def strLt (a b : String) : Bool := strLtChars a.toList b.toList

/-- The distinct non-null phone values of the column. -/
def presentKeys (phones : List (Option String)) : List String :=
  (phones.filterMap id).dedup

/-- `groupby('Phone Number').ngroup()` for a present key: the rank of the
key in the sorted order of the distinct keys. -/
def groupRank (phones : List (Option String)) (s : String) : Nat :=
  ((presentKeys phones).filter (fun q => strLt q s)).length

/-- `groupby('Phone Number').cumcount() + 1` for one cell, given the cells
above it in the column; null for a missing key (dropped by `groupby`). -/
def dupPos (prev : List (Option String)) : Option String → Option Nat
  | none => none
  | some s => some (countPhone prev (some s) + 1)

/-- Build the working row for one record: the duplicate columns of lines
174-176, the email columns of lines 187-189, and the null-initialised
profile and verdict columns of lines 192-198. -/
def mkRow (phones prev : List (Option String)) (r : RawRecord) : Row :=
  { name := r.name, emailAddress := r.emailAddress,
    skillsBoostEmail := r.skillsBoostEmail, phoneNumber := r.phoneNumber,
    termsPresent := r.termsPresent, terms := r.terms, profileURL := r.profileURL,
    is_duplicate := dupFlag phones r.phoneNumber,
    duplicate_group := Option.map (groupRank phones) r.phoneNumber,
    duplicate_position := dupPos prev r.phoneNumber,
    email_matches := cellEq r.emailAddress r.skillsBoostEmail,
    email_has_gdg_domain := hasGdgDomain r.emailAddress,
    skillsboost_has_gdg_domain := hasGdgDomain r.skillsBoostEmail,
    profile_creation_year := none, profile_badge_count := none,
    profile_league := none, profile_points := none, profile_status := none,
    qualification_status := none, qualification_reason := none }

/-- Worker for `groupAnnotate`: `prev` holds the phone cells above the
current record in file order. -/
def annotateAux (phones : List (Option String)) : List (Option String) → List RawRecord → List Row
  | _, [] => []
  | prev, r :: rest => mkRow phones prev r :: annotateAux phones (prev ++ [r.phoneNumber]) rest

/-- Lines 174-176 plus 187-198 over the whole dataset, in file order. -/
def groupAnnotate (rs : List RawRecord) : List Row :=
  annotateAux (rs.map (fun r => r.phoneNumber)) [] rs

/-- Strict comparison of sort cells with nulls last (`na_position='last'`). -/
def cellLt : Option Nat → Option Nat → Bool
  | some a, some b => a < b
  | some _, none => true
  | none, _ => false

/-- The lexicographic `(duplicate_group, duplicate_position)` comparison of
line 179, nulls last. -/
def rowLe (a b : Row) : Bool :=
  cellLt a.duplicate_group b.duplicate_group ||
    (a.duplicate_group == b.duplicate_group &&
      (cellLt a.duplicate_position b.duplicate_position ||
        a.duplicate_position == b.duplicate_position))

/-- Line 179: `df.sort_values(['duplicate_group', 'duplicate_position'])`. -/
def sortRows (l : List Row) : List Row := l.mergeSort rowLe

/-- Recover the raw record from a working row. -/
def rowRaw (row : Row) : RawRecord :=
  { name := row.name, emailAddress := row.emailAddress,
    skillsBoostEmail := row.skillsBoostEmail, phoneNumber := row.phoneNumber,
    termsPresent := row.termsPresent, terms := row.terms,
    profileURL := row.profileURL }

/-! ## The report aggregator (lines 247-304)

Only the percentage computations matter for the claims.  A Python division
is total unless its denominator is zero, in which case it raises
`ZeroDivisionError`; this is modelled by `Option`, `none` being the raised
exception.  The source guards the three `valid_count` denominators
(lines 279, 292, 302) but divides by `total_entries` unconditionally at
line 277. -/

/-- A Python division: `none` is a raised `ZeroDivisionError`. -/
def safeDivQ (a b : ℚ) : Option ℚ :=
  if b = 0 then none else some (a / b)

/-- `(num / den) * 100` with the division as in Python. -/
def pctOf (num den : Nat) : Option ℚ :=
  (safeDivQ (num : ℚ) (den : ℚ)).map (fun q => q * 100)

/-- Line 271. -/
def invalidStatuses : List String :=
  ["INCOMPLETE_REGISTRATION", "TERMS_DECLINED", "NO_PROFILE_URL", "DUPLICATE_ENTRY"]

/-- Line 272: the valid subset of the verdicts. -/
def validEntries (verdicts : List String) : List String :=
  verdicts.filter (fun s => !invalidStatuses.contains s)

/-- Line 283: one per-status percentage of the valid-entries breakdown,
computed against the valid subset size. -/
def validPct (verdicts : List String) (s : String) : ℚ :=
  (((validEntries verdicts).count s : ℚ) / ((validEntries verdicts).length : ℚ)) * 100

/-- Line 287. -/
def qualifiedStatuses : List String := ["HARD_QUALIFIED", "QUALIFIED_TIER2"]

/-- Line 297. -/
def actionRequiredStatuses : List String :=
  ["FLAGGED_DIFF_ACCOUNT", "REVIEW_NEEDED", "CAUTION_PRE2025", "REVIEW_PRE2025"]

/-- The percentages printed by the summary (lines 263-304). -/
structure SummaryStats where
  statusBreakdown : List (String × ℚ)
  validPercentOfTotal : ℚ
  validBreakdown : List (String × ℚ)
  qualifiedPercent : ℚ
  actionPercent : ℚ
deriving DecidableEq, Repr

/-- The percentage computations of the summary, in source order.  `none`
means the run raised.  Guards are placed exactly where the source has them:
the per-status loop of line 267 only runs over statuses that occur, the
valid breakdown and the qualified and action percentages are guarded by
`valid_count > 0` (lines 279, 292, 302), but the valid-of-total percentage
of line 277 divides by `total_entries` unconditionally. -/
def summaryStats (verdicts : List String) : Option SummaryStats := do
  let total := verdicts.length
  let breakdown ← verdicts.dedup.mapM
    (fun s => (pctOf (verdicts.count s) total).map (fun q => (s, q)))
  let valid := validEntries verdicts
  let vc := valid.length
  let validPctTotal ← pctOf vc total
  let validBreakdown ← if 0 < vc then
      valid.dedup.mapM (fun s => (pctOf (valid.count s) vc).map (fun q => (s, q)))
    else pure []
  let qualifiedPct ← if 0 < vc then
      pctOf (verdicts.filter (fun s => qualifiedStatuses.contains s)).length vc
    else pure 0
  let actionPct ← if 0 < vc then
      pctOf (verdicts.filter (fun s => actionRequiredStatuses.contains s)).length vc
    else pure 0
  pure { statusBreakdown := breakdown, validPercentOfTotal := validPctTotal,
         validBreakdown := validBreakdown, qualifiedPercent := qualifiedPct,
         actionPercent := actionPct }

/-! ## Concrete records and datasets used in counterexamples and witnesses -/

/-- A concrete record with every required field present, the `Terms` column
present and its value null. -/
def c10Row : Row :=
  { name := some "Dana", emailAddress := some "dana@example.com",
    skillsBoostEmail := some "dana@example.com", phoneNumber := some "555",
    termsPresent := true, terms := none,
    profileURL := some "https://example.com/dana", is_duplicate := false,
    duplicate_group := some 0, duplicate_position := some 1,
    email_matches := true, email_has_gdg_domain := false,
    skillsboost_has_gdg_domain := false,
    profile_creation_year := none, profile_badge_count := none,
    profile_league := none, profile_points := none, profile_status := none,
    qualification_status := none, qualification_reason := none }

/-- A record that reaches rule 10 with an entirely empty profile: the
declared and program emails differ, neither matches the reserved-domain
pattern, the account was created in 2025 and has no badges, points or
league. -/
def reviewEmptyRow : Row :=
  { name := some "Zed", emailAddress := some "zed@example.com",
    skillsBoostEmail := some "other@example.org", phoneNumber := some "999",
    termsPresent := true, terms := some acceptedTerms,
    profileURL := some "https://example.com/p", is_duplicate := false,
    duplicate_group := some 0, duplicate_position := some 1,
    email_matches := false, email_has_gdg_domain := false,
    skillsboost_has_gdg_domain := false,
    profile_creation_year := some 2025, profile_badge_count := some 0,
    profile_league := none, profile_points := some 0,
    profile_status := some "success",
    qualification_status := none, qualification_reason := none }

/-- A record reaching rule 10 with a non-empty profile: 2025 account,
0 badges but 37 points and a league, emails matching but not in the
reserved domain. -/
def c1WitnessRow : Row :=
  { name := some "Ada", emailAddress := some "ada@example.com",
    skillsBoostEmail := some "ada@example.com", phoneNumber := some "777",
    termsPresent := true, terms := some acceptedTerms,
    profileURL := some "https://example.com/ada", is_duplicate := false,
    duplicate_group := some 0, duplicate_position := some 1,
    email_matches := true, email_has_gdg_domain := false,
    skillsboost_has_gdg_domain := false,
    profile_creation_year := some 2025, profile_badge_count := some 0,
    profile_league := some "Gold", profile_points := some 37,
    profile_status := some "success",
    qualification_status := none, qualification_reason := none }

/-- An email in which the reserved-domain text occurs only in the interior
(the true domain suffix is `.org`). -/
def cexEmailInterior : String := "x.gdgocbcet@gmail.com.org"

/-- An email that matches the pattern only through the two wildcard dots:
the literal reserved-domain string does not occur in it at all. -/
def cexEmailWildcard : String := "Xgdgocbcet@gmailZcom"

/-- A record with a missing name: first-pass verdict is from rules 1-3. -/
def c7SkipRow : Row :=
  { name := none, emailAddress := some "kim@example.com",
    skillsBoostEmail := some "kim@example.com", phoneNumber := some "123",
    termsPresent := true, terms := some acceptedTerms,
    profileURL := some "https://example.com/kim", is_duplicate := false,
    duplicate_group := some 0, duplicate_position := some 1,
    email_matches := true, email_has_gdg_domain := false,
    skillsboost_has_gdg_domain := false,
    profile_creation_year := none, profile_badge_count := none,
    profile_league := none, profile_points := none, profile_status := none,
    qualification_status := none, qualification_reason := none }

/-- A complete record at duplicate position 2: first-pass verdict is
`DUPLICATE_ENTRY`. -/
def c7DupRow : Row :=
  { name := some "Lee", emailAddress := some "lee@example.com",
    skillsBoostEmail := some "lee@example.com", phoneNumber := some "123",
    termsPresent := true, terms := some acceptedTerms,
    profileURL := some "https://example.com/lee", is_duplicate := true,
    duplicate_group := some 0, duplicate_position := some 2,
    email_matches := true, email_has_gdg_domain := false,
    skillsboost_has_gdg_domain := false,
    profile_creation_year := none, profile_badge_count := none,
    profile_league := none, profile_points := none, profile_status := none,
    qualification_status := none, qualification_reason := none }

/-- Some concrete fetched evidence. -/
def c7Fetch : Evidence :=
  { creation_date := some "Member since 2025", creation_year := some 2025,
    badge_count := some 3, league := some "Bronze", points := some 120,
    status := "success" }

/-- A small verdict list whose valid subset has three members in two
statuses. -/
def c8Demo : List String :=
  ["HARD_QUALIFIED", "DUPLICATE_ENTRY", "UNKNOWN", "HARD_QUALIFIED"]

/-- A row of all-null fields, used only as the default of `List.getD`. -/
def defaultRow : Row :=
  { name := none, emailAddress := none, skillsBoostEmail := none,
    phoneNumber := none, termsPresent := false, terms := none,
    profileURL := none, is_duplicate := false, duplicate_group := none,
    duplicate_position := none, email_matches := false,
    email_has_gdg_domain := false, skillsboost_has_gdg_domain := false,
    profile_creation_year := none, profile_badge_count := none,
    profile_league := none, profile_points := none, profile_status := none,
    qualification_status := none, qualification_reason := none }

/-- Two distinct records that both have a missing phone number (and a
missing name). -/
def blankPhones : List RawRecord :=
  [ { name := none, emailAddress := some "a@x.com", skillsBoostEmail := some "a@x.com",
      phoneNumber := none, termsPresent := true, terms := some acceptedTerms,
      profileURL := some "https://example.com/a" },
    { name := none, emailAddress := some "b@y.com", skillsBoostEmail := some "b@y.com",
      phoneNumber := none, termsPresent := true, terms := some acceptedTerms,
      profileURL := some "https://example.com/b" } ]

/-- Three complete records, the first two sharing a phone number and
carrying reserved-domain emails. -/
def demo4 : List RawRecord :=
  [ { name := some "A", emailAddress := some "a.gdgocbcet@gmail.com",
      skillsBoostEmail := some "a.gdgocbcet@gmail.com", phoneNumber := some "111",
      termsPresent := true, terms := some acceptedTerms,
      profileURL := some "https://example.com/a" },
    { name := some "B", emailAddress := some "a.gdgocbcet@gmail.com",
      skillsBoostEmail := some "a.gdgocbcet@gmail.com", phoneNumber := some "111",
      termsPresent := true, terms := some acceptedTerms,
      profileURL := some "https://example.com/b" },
    { name := some "C", emailAddress := some "c@x.com",
      skillsBoostEmail := some "c@x.com", phoneNumber := some "222",
      termsPresent := true, terms := some acceptedTerms,
      profileURL := some "https://example.com/c" } ]

/-- Evidence that would satisfy the `HARD_QUALIFIED` conditions of rule 5
for a reserved-domain record: 2025 creation, empty profile. -/
def hardEv : Evidence :=
  { creation_date := some "Member since 2025", creation_year := some 2025,
    badge_count := some 0, league := none, points := none, status := "success" }

/-- Three complete records with phones 222, 111, 222: the duplicate group
of phone 222 is split by a record of phone 111 in file order, and group
numbering follows the sorted key order, so the grouped sort reorders the
dataset. -/
def c9Demo : List RawRecord :=
  [ { name := some "P", emailAddress := some "p@x.com",
      skillsBoostEmail := some "p@x.com", phoneNumber := some "222",
      termsPresent := true, terms := some acceptedTerms,
      profileURL := some "https://example.com/p" },
    { name := some "Q", emailAddress := some "q@x.com",
      skillsBoostEmail := some "q@x.com", phoneNumber := some "111",
      termsPresent := true, terms := some acceptedTerms,
      profileURL := some "https://example.com/q" },
    { name := some "R", emailAddress := some "r@x.com",
      skillsBoostEmail := some "r@x.com", phoneNumber := some "222",
      termsPresent := true, terms := some acceptedTerms,
      profileURL := some "https://example.com/r" } ]

/-! ## General lemmas about the rule engine -/

/-- Totality: the verdict always comes from the closed status enumeration. -/
theorem qualification_status_mem (row : Row) :
    (determine_qualification row).1 ∈ statusList := by
  unfold determine_qualification
  by_cases h1 : incompleteCond row = true
  · rw [if_pos h1]; simp [statusList]
  rw [if_neg h1]
  by_cases h2 : termsDeclinedCond row = true
  · rw [if_pos h2]; simp [statusList]
  rw [if_neg h2]
  by_cases h3 : noUrlCond row = true
  · rw [if_pos h3]; simp [statusList]
  rw [if_neg h3]
  by_cases h4 : duplicateCond row = true
  · rw [if_pos h4]; simp [statusList]
  rw [if_neg h4]
  by_cases h5 : hardQualCond row = true
  · rw [if_pos h5]; simp [statusList]
  rw [if_neg h5]
  by_cases h6 : tier2Cond row = true
  · rw [if_pos h6]; simp [statusList]
  rw [if_neg h6]
  by_cases h7 : flaggedCond row = true
  · rw [if_pos h7]; simp [statusList]
  rw [if_neg h7]
  by_cases h8 : disqualCond row = true
  · rw [if_pos h8]; simp [statusList]
  rw [if_neg h8]
  by_cases h9 : cautionCond row = true
  · rw [if_pos h9]; simp [statusList]
  rw [if_neg h9]
  by_cases h10 : (row.profile_creation_year == some 2025) = true
  · rw [if_pos h10]; simp [statusList]
  rw [if_neg h10]
  by_cases h11 : truthyPre2025 row.profile_creation_year = true
  · rw [if_pos h11]; simp [statusList]
  rw [if_neg h11]
  simp [statusList]

/-- A `DUPLICATE_ENTRY` verdict implies the profile URL check of rule 3
already passed. -/
theorem duplicate_url_not_blank (row : Row)
    (h : (determine_qualification row).1 = "DUPLICATE_ENTRY") :
    blankUrl row.profileURL = false := by
  unfold determine_qualification at h
  by_cases h1 : incompleteCond row = true
  · rw [if_pos h1] at h; exact absurd h (by decide)
  rw [if_neg h1] at h
  by_cases h2 : termsDeclinedCond row = true
  · rw [if_pos h2] at h; exact absurd h (by decide)
  rw [if_neg h2] at h
  by_cases h3 : noUrlCond row = true
  · rw [if_pos h3] at h; exact absurd h (by decide)
  rw [if_neg h3] at h
  unfold noUrlCond at h3
  simpa using h3

/-! ## Claim C10 -/

/-- Claim C10: when the required fields are all present but the consent
value itself is missing (the `Terms` column exists, the cell is null), the
classifier returns `TERMS_DECLINED`: a null consent value is treated like an
explicit non-acceptance, not like an incomplete registration. -/
theorem claim10_null_consent_is_declined (row : Row)
    (hn : row.name.isSome = true) (he : row.emailAddress.isSome = true)
    (hs : row.skillsBoostEmail.isSome = true) (hp : row.phoneNumber.isSome = true)
    (ht : row.termsPresent = true) (hv : row.terms = none) :
    determine_qualification row = ("TERMS_DECLINED", "Terms and conditions not accepted") := by
  rcases Option.isSome_iff_exists.mp hn with ⟨a, ha⟩
  rcases Option.isSome_iff_exists.mp he with ⟨b, hb⟩
  rcases Option.isSome_iff_exists.mp hs with ⟨c, hc⟩
  rcases Option.isSome_iff_exists.mp hp with ⟨d, hd⟩
  have h1 : incompleteCond row = false := by
    simp [incompleteCond, ha, hb, hc, hd]
  have h2 : termsDeclinedCond row = true := by
    rw [termsDeclinedCond, ht, hv]; decide
  unfold determine_qualification
  rw [if_neg (by simp [h1]), if_pos h2]

/-- Witness for C10 at the concrete record `c10Row`. -/
theorem claim10_witness :
    determine_qualification c10Row = ("TERMS_DECLINED", "Terms and conditions not accepted") :=
  claim10_null_consent_is_declined c10Row rfl rfl rfl rfl rfl rfl

/-! ## Claim C1 -/

/-- Counterexample to C1 as stated: `reviewEmptyRow` reaches rule 10 (its
verdict `REVIEW_NEEDED` is only produced there) although its profile IS
empty in exactly the sense of rules 5-6 and 9 (badges zero, points zero,
league absent), contradicting the claim that `REVIEW_NEEDED` is returned
only for non-empty profiles. -/
theorem claim1_counterexample :
    determine_qualification reviewEmptyRow
        = ("REVIEW_NEEDED", "2025 account with 0 badges, 0 points")
      ∧ zeroOrAbsent reviewEmptyRow.profile_badge_count = true
      ∧ zeroOrAbsent reviewEmptyRow.profile_points = true
      ∧ absentOrEmpty reviewEmptyRow.profile_league = true := by
  decide

/-- Claim C1 amended: a record on which no rule among 1-9 matches is
classified `REVIEW_NEEDED` exactly when its evidence creation year equals
the program year 2025 - whether or not the profile is empty - and the
reason string then reports the actual badge and point counts (an absent
count rendered as 0). -/
theorem claim1_amended (row : Row)
    (h1 : incompleteCond row = false) (h2 : termsDeclinedCond row = false)
    (h3 : noUrlCond row = false) (h4 : duplicateCond row = false)
    (h5 : hardQualCond row = false) (h6 : tier2Cond row = false)
    (h7 : flaggedCond row = false) (h8 : disqualCond row = false)
    (h9 : cautionCond row = false) :
    (row.profile_creation_year = some 2025 →
      determine_qualification row = ("REVIEW_NEEDED",
        "2025 account with " ++ toString (orZero row.profile_badge_count) ++
          " badges, " ++ toString (orZero row.profile_points) ++ " points"))
    ∧ (row.profile_creation_year ≠ some 2025 →
      (determine_qualification row).1 ≠ "REVIEW_NEEDED") := by
  unfold determine_qualification
  rw [if_neg (by simp [h1]), if_neg (by simp [h2]), if_neg (by simp [h3]),
      if_neg (by simp [h4]), if_neg (by simp [h5]), if_neg (by simp [h6]),
      if_neg (by simp [h7]), if_neg (by simp [h8]), if_neg (by simp [h9])]
  refine ⟨fun hy => ?_, fun hy => ?_⟩
  · rw [if_pos (by simp [hy])]
  · rw [if_neg (by simp [hy])]
    by_cases h11 : truthyPre2025 row.profile_creation_year = true
    · rw [if_pos h11]; simp
    · rw [if_neg h11]; simp

/-- Witness for the amended C1 at `c1WitnessRow`. -/
theorem claim1_witness :
    determine_qualification c1WitnessRow = ("REVIEW_NEEDED",
      "2025 account with " ++ toString (orZero c1WitnessRow.profile_badge_count) ++
        " badges, " ++ toString (orZero c1WitnessRow.profile_points) ++ " points") :=
  (claim1_amended c1WitnessRow (by decide) (by decide) (by decide) (by decide)
    (by decide) (by decide) (by decide) (by decide) (by decide)).1 (by decide)

/-! ## Claim C5 -/

/-- Characterisation of a whole-pattern match at the head of a list. -/
theorem matchGdgAt_iff (l : List Char) :
    matchGdgAt l = true ↔
      ∃ a b suf, l = a :: (gdgLit ++ b :: (comLit ++ suf)) ∧
        reWild a = true ∧ reWild b = true := by
  cases l with
  | nil => simp [matchGdgAt]
  | cons c rest =>
    simp only [matchGdgAt, Bool.and_eq_true, List.isPrefixOf_iff_prefix]
    constructor
    · rintro ⟨⟨hw, t, ht⟩, hdot⟩
      subst ht
      rw [show (15 : Nat) = gdgLit.length from rfl, List.drop_left] at hdot
      cases t with
      | nil => simp [matchDotCom] at hdot
      | cons d t2 =>
        simp only [matchDotCom, Bool.and_eq_true, List.isPrefixOf_iff_prefix] at hdot
        obtain ⟨hwd, u, hu⟩ := hdot
        exact ⟨c, d, u, by rw [← hu], hw, hwd⟩
    · rintro ⟨a, b, suf, heq, hwa, hwb⟩
      simp only [List.cons.injEq] at heq
      obtain ⟨rfl, rfl⟩ := heq
      refine ⟨⟨hwa, b :: (comLit ++ suf), rfl⟩, ?_⟩
      rw [show (15 : Nat) = gdgLit.length from rfl, List.drop_left]
      simp only [matchDotCom, Bool.and_eq_true, List.isPrefixOf_iff_prefix]
      exact ⟨hwb, suf, rfl⟩

/-- Characterisation of the regex search over the whole string: the pattern
may match at any position. -/
theorem searchGdg_iff (l : List Char) :
    searchGdgList l = true ↔
      ∃ pre a b suf, l = pre ++ a :: (gdgLit ++ b :: (comLit ++ suf)) ∧
        reWild a = true ∧ reWild b = true := by
  induction l with
  | nil =>
    simp [searchGdgList]
  | cons c rest ih =>
    simp only [searchGdgList, Bool.or_eq_true, ih, matchGdgAt_iff]
    constructor
    · rintro (⟨a, b, suf, heq, hwa, hwb⟩ | ⟨pre, a, b, suf, heq, hwa, hwb⟩)
      · exact ⟨[], a, b, suf, by simpa using heq, hwa, hwb⟩
      · exact ⟨c :: pre, a, b, suf, by simp [heq], hwa, hwb⟩
    · rintro ⟨pre, a, b, suf, heq, hwa, hwb⟩
      cases pre with
      | nil =>
        left
        exact ⟨a, b, suf, by simpa using heq, hwa, hwb⟩
      | cons p pre2 =>
        right
        simp only [List.cons_append, List.cons.injEq] at heq
        exact ⟨pre2, a, b, suf, heq.2, hwa, hwb⟩

/-- Counterexample to C5 as stated: the predicate of lines 188-189 accepts
an email with the reserved domain as an interior substring and an email
that matches only via wildcard characters, although the reserved domain is
a suffix of neither. -/
theorem claim5_counterexample :
    hasGdgDomain (some cexEmailInterior) = true
      ∧ specReservedSuffix cexEmailInterior = false
      ∧ hasGdgDomain (some cexEmailWildcard) = true
      ∧ specReservedSuffix cexEmailWildcard = false := by
  decide

/-- Claim C5 amended: the reserved-domain predicate used by rules 5 and 7
holds exactly when the 20-character regex pattern occurs somewhere inside
the email: any non-newline character, the literal `gdgocbcet@gmail`, any
non-newline character, then `com`.  Suffix position is not required, so
interior occurrences and pure wildcard matches also satisfy it. -/
theorem claim5_amended (s : String) :
    hasGdgDomain (some s) = true ↔
      ∃ pre a b suf, s.toList = pre ++ a :: (gdgLit ++ b :: (comLit ++ suf)) ∧
        reWild a = true ∧ reWild b = true :=
  searchGdg_iff s.toList

/-! ## Claim C6 -/

/-- Claim C6: when all three fetch attempts raise, `check_profile` returns
(rather than raising) an evidence value whose content fields are all null
and whose status is the error marker - never `success` - and the rule
engine still produces a verdict from the closed enumeration for a record
carrying that evidence. -/
theorem claim6_fetch_failure_nonfatal (e1 e2 e3 : String) (row : Row) :
    check_profile [Except.error e1, Except.error e2, Except.error e3]
        = some (errorEvidence e3)
      ∧ (errorEvidence e3).creation_date = none
      ∧ (errorEvidence e3).creation_year = none
      ∧ (errorEvidence e3).badge_count = none
      ∧ (errorEvidence e3).league = none
      ∧ (errorEvidence e3).points = none
      ∧ (errorEvidence e3).status = "error: " ++ e3
      ∧ (errorEvidence e3).status ≠ "success"
      ∧ (determine_qualification (setEvidence row (errorEvidence e3))).1 ∈ statusList := by
  refine ⟨rfl, rfl, rfl, rfl, rfl, rfl, rfl, ?_, qualification_status_mem _⟩
  intro h
  rw [show (errorEvidence e3).status = "error: " ++ e3 from rfl] at h
  have hd := congrArg String.data h
  simp [String.data_append] at hd

/-! ## Claim C7 -/

/-- Claim C7: a record first classified by one of rules 1-3 is terminal -
no evidence is fetched (`false` flag), the evidence columns stay as they
were, `profile_status` is set to `skipped` and the verdict is exactly the
first-pass verdict; a record first classified `DUPLICATE_ENTRY` still has
evidence fetched (`true` flag) and stored, but keeps the `DUPLICATE_ENTRY`
status and reason - no second classification pass replaces them. -/
theorem claim7_two_pass_frame (row : Row) (ev : Evidence) :
    ((determine_qualification row).1 ∈ skip3 →
      processRecord ev row =
        ({ row with qualification_status := some (determine_qualification row).1,
                    qualification_reason := some (determine_qualification row).2,
                    profile_status := some "skipped" }, false))
    ∧ ((determine_qualification row).1 = "DUPLICATE_ENTRY" →
      processRecord ev row =
        (setEvidence
          { row with qualification_status := some "DUPLICATE_ENTRY",
                     qualification_reason := some (determine_qualification row).2 } ev,
         true)) := by
  constructor
  · intro hmem
    simp only [processRecord]
    simp only [skip3, List.mem_cons, List.not_mem_nil, or_false] at hmem
    rcases hmem with h | h | h <;> rw [h, if_pos (by decide)]
  · intro hdup
    have hurl : blankUrl row.profileURL = false := duplicate_url_not_blank row hdup
    simp only [processRecord]
    rw [hdup, hurl]
    rw [if_neg (show ¬ (skip3.contains "DUPLICATE_ENTRY" = true) by decide)]
    rw [if_pos (show ("DUPLICATE_ENTRY" == "DUPLICATE_ENTRY") = true by decide)]
    rw [if_pos (show (!false) = true by decide)]
    rw [if_neg (show ¬ (("DUPLICATE_ENTRY" != "DUPLICATE_ENTRY") = true) by decide)]

/-- Witness for C7: at `c7SkipRow` no fetch happens, at `c7DupRow` the
fetch happens, the evidence is stored, and the status stays
`DUPLICATE_ENTRY`. -/
theorem claim7_witness :
    (processRecord c7Fetch c7SkipRow).2 = false
      ∧ (processRecord c7Fetch c7DupRow).2 = true
      ∧ (processRecord c7Fetch c7DupRow).1.qualification_status = some "DUPLICATE_ENTRY"
      ∧ (processRecord c7Fetch c7DupRow).1.profile_creation_year = c7Fetch.creation_year := by
  have h1 := (claim7_two_pass_frame c7SkipRow c7Fetch).1 (by decide)
  have h2 := (claim7_two_pass_frame c7DupRow c7Fetch).2 (by decide)
  rw [h1, h2]
  exact ⟨rfl, rfl, rfl, rfl⟩

/-! ## Claim C3 -/

/-- Claim C3 fails on the code: on the empty dataset the summary raises a
`ZeroDivisionError` at line 277, where `(valid_count/total_entries)*100`
divides by the total record count with no guard; by contrast a dataset
whose *valid* subset is empty is handled, because the three `valid_count`
denominators are guarded (lines 279, 292, 302). -/
theorem claim3_empty_dataset_raises :
    summaryStats [] = none ∧ summaryStats ["DUPLICATE_ENTRY"] ≠ none := by
  decide

/-! ## Claim C8 -/

/-- Claim C8: when the valid subset is non-empty, every per-status
percentage of the valid-entries breakdown is that status count divided by
the valid subset size (not the total record count) times 100, and these
percentages sum to exactly 100. -/
theorem claim8_valid_percentages (verdicts : List String)
    (h : 0 < (validEntries verdicts).length) :
    (∀ s, validPct verdicts s =
      ((validEntries verdicts).count s : ℚ) / ((validEntries verdicts).length : ℚ) * 100)
    ∧ ∑ s ∈ (validEntries verdicts).toFinset, validPct verdicts s = 100 := by
  refine ⟨fun s => rfl, ?_⟩
  have h0 : ∑ s ∈ (validEntries verdicts).toFinset, (validEntries verdicts).count s
      = (validEntries verdicts).length := by
    simp
  have hcount : ∑ s ∈ (validEntries verdicts).toFinset, ((validEntries verdicts).count s : ℚ)
      = ((validEntries verdicts).length : ℚ) := by
    rw [← Nat.cast_sum, h0]
  have hlen : (((validEntries verdicts).length : ℚ)) ≠ 0 :=
    Nat.cast_ne_zero.mpr (Nat.pos_iff_ne_zero.mp h)
  unfold validPct
  rw [← Finset.sum_mul, ← Finset.sum_div, hcount, div_self hlen, one_mul]

/-- Witness for C8 at `c8Demo`. -/
theorem claim8_witness :
    0 < (validEntries c8Demo).length
      ∧ ∑ s ∈ (validEntries c8Demo).toFinset, validPct c8Demo s = 100 :=
  ⟨by decide, (claim8_valid_percentages c8Demo (by decide)).2⟩

/-! ## Lemmas about the record grouper -/

theorem nanEq_some (q : Option String) (p : String) :
    nanEq q (some p) = (q == some p) := by
  cases q <;> rfl

theorem countPhone_append (l1 l2 : List (Option String)) (p : Option String) :
    countPhone (l1 ++ l2) p = countPhone l1 p + countPhone l2 p := by
  simp [countPhone, List.filter_append]

theorem countPhone_cons (q : Option String) (l : List (Option String)) (p : Option String) :
    countPhone (q :: l) p = (if nanEq q p then 1 else 0) + countPhone l p := by
  by_cases h : nanEq q p = true <;>
    simp [countPhone, List.filter_cons, h, Nat.add_comm]

/-- Every row produced by `annotateAux` is `mkRow` of some record, with the
phone column splitting as the cells before it, its own cell, and the cells
after it. -/
theorem annotateAux_mem (phones : List (Option String)) (rest : List RawRecord) :
    ∀ (prev : List (Option String)) (row : Row),
      row ∈ annotateAux phones prev rest →
      ∃ prev2 r rest2, row = mkRow phones prev2 r ∧
        prev2 ++ r.phoneNumber :: rest2 = prev ++ rest.map (fun x => x.phoneNumber) := by
  induction rest with
  | nil =>
    intro prev row h
    simp [annotateAux] at h
  | cons r rest ih =>
    intro prev row h
    simp only [annotateAux] at h
    rcases List.mem_cons.mp h with h | h
    · exact ⟨prev, r, rest.map (fun x => x.phoneNumber), h, by simp⟩
    · obtain ⟨prev2, r2, rest2, heq, happ⟩ := ih (prev ++ [r.phoneNumber]) row h
      refine ⟨prev2, r2, rest2, heq, ?_⟩
      rw [happ]
      simp

/-- Specialisation of `annotateAux_mem` to the whole pipeline. -/
theorem groupAnnotate_mem (rs : List RawRecord) (row : Row)
    (h : row ∈ groupAnnotate rs) :
    ∃ prev2 r rest2, row = mkRow (rs.map (fun x => x.phoneNumber)) prev2 r ∧
      prev2 ++ r.phoneNumber :: rest2 = rs.map (fun x => x.phoneNumber) := by
  rw [groupAnnotate] at h
  simpa using annotateAux_mem (rs.map (fun r => r.phoneNumber)) rs [] row h

/-- In the grouper output, a duplicate position above 1 forces the
`is_duplicate` flag: the phone value occurs earlier, so the whole column
holds it at least twice. -/
theorem groupAnnotate_pos_gt1_is_dup (rs : List RawRecord) (row : Row) (n : Nat)
    (hmem : row ∈ groupAnnotate rs) (hpos : row.duplicate_position = some n)
    (hn : 1 < n) : row.is_duplicate = true := by
  obtain ⟨prev2, r, rest2, heq, happ⟩ := groupAnnotate_mem rs row hmem
  subst heq
  cases hq : r.phoneNumber with
  | none =>
    rw [show (mkRow (rs.map (fun x => x.phoneNumber)) prev2 r).duplicate_position
        = dupPos prev2 r.phoneNumber from rfl, hq] at hpos
    simp [dupPos] at hpos
  | some s =>
    have hpos' : countPhone prev2 (some s) + 1 = n := by
      rw [show (mkRow (rs.map (fun x => x.phoneNumber)) prev2 r).duplicate_position
          = dupPos prev2 r.phoneNumber from rfl, hq] at hpos
      simpa [dupPos] using hpos
    rw [hq] at happ
    have hc : 2 ≤ countPhone (rs.map (fun x => x.phoneNumber)) (some s) := by
      rw [← happ, countPhone_append, countPhone_cons,
          if_pos (show nanEq (some s) (some s) = true by simp [nanEq])]
      omega
    show dupFlag (rs.map (fun x => x.phoneNumber)) r.phoneNumber = true
    rw [hq]
    simpa [dupFlag] using hc

/-- Only the rule 4 branch can produce a `DUPLICATE_ENTRY` status. -/
theorem dup_status_requires_cond (row : Row)
    (h : (determine_qualification row).1 = "DUPLICATE_ENTRY") :
    duplicateCond row = true := by
  unfold determine_qualification at h
  by_cases h1 : incompleteCond row = true
  · rw [if_pos h1] at h; simp at h
  rw [if_neg h1] at h
  by_cases h2 : termsDeclinedCond row = true
  · rw [if_pos h2] at h; simp at h
  rw [if_neg h2] at h
  by_cases h3 : noUrlCond row = true
  · rw [if_pos h3] at h; simp at h
  rw [if_neg h3] at h
  by_cases h4 : duplicateCond row = true
  · exact h4
  rw [if_neg h4] at h
  by_cases h5 : hardQualCond row = true
  · rw [if_pos h5] at h; simp at h
  rw [if_neg h5] at h
  by_cases h6 : tier2Cond row = true
  · rw [if_pos h6] at h; simp at h
  rw [if_neg h6] at h
  by_cases h7 : flaggedCond row = true
  · rw [if_pos h7] at h; simp at h
  rw [if_neg h7] at h
  by_cases h8 : disqualCond row = true
  · rw [if_pos h8] at h; simp at h
  rw [if_neg h8] at h
  by_cases h9 : cautionCond row = true
  · rw [if_pos h9] at h; simp at h
  rw [if_neg h9] at h
  by_cases h10 : (row.profile_creation_year == some 2025) = true
  · rw [if_pos h10] at h; simp at h
  rw [if_neg h10] at h
  by_cases h11 : truthyPre2025 row.profile_creation_year = true
  · rw [if_pos h11] at h; simp at h
  rw [if_neg h11] at h
  simp at h

/-! ## Claim C2 -/

/-- Counterexample to C2 as stated: in the two-record dataset whose phone
cells are both null, pandas `duplicated(keep=False)` treats the nulls as
equal, so BOTH records are flagged as duplicates of each other; and neither
forms a singleton group - `groupby` drops null keys, leaving null group ids
and positions instead of a one-member group at position 1. -/
theorem claim2_counterexample :
    (groupAnnotate blankPhones).map (fun row => row.is_duplicate) = [true, true]
      ∧ (groupAnnotate blankPhones).map (fun row => row.duplicate_position) = [none, none]
      ∧ (groupAnnotate blankPhones).map (fun row => row.duplicate_group) = [none, none] := by
  decide

/-- Claim C2 amended: a record with a missing phone number is excluded from
group numbering (null group id and position, rather than a singleton group),
and although pandas may flag several null-phone records as duplicates of
each other, every such record is classified `INCOMPLETE_REGISTRATION` by
rule 1 - never `DUPLICATE_ENTRY` - so no duplicate verdict arises from
blank keys; a blank name cannot change this. -/
theorem claim2_amended (rs : List RawRecord) (row : Row)
    (hmem : row ∈ groupAnnotate rs) (hphone : row.phoneNumber = none) :
    row.duplicate_position = none ∧ row.duplicate_group = none
      ∧ determine_qualification row
          = ("INCOMPLETE_REGISTRATION", "Missing required fields (Name, Email, or Phone)")
      ∧ (determine_qualification row).1 ≠ "DUPLICATE_ENTRY" := by
  have hcls : determine_qualification row
      = ("INCOMPLETE_REGISTRATION", "Missing required fields (Name, Email, or Phone)") := by
    unfold determine_qualification
    rw [if_pos (show incompleteCond row = true by simp [incompleteCond, hphone])]
  obtain ⟨prev2, r, rest2, heq, happ⟩ := groupAnnotate_mem rs row hmem
  have hq : r.phoneNumber = none := by
    rw [heq] at hphone
    simpa [mkRow] using hphone
  refine ⟨?_, ?_, hcls, by rw [hcls]; decide⟩
  · rw [heq]
    simp [mkRow, dupPos, hq]
  · rw [heq]
    simp [mkRow, hq]

/-- Witness for the amended C2 at the first record of `blankPhones`. -/
theorem claim2_witness :
    ((groupAnnotate blankPhones).getD 0 defaultRow).duplicate_position = none
      ∧ (determine_qualification ((groupAnnotate blankPhones).getD 0 defaultRow)).1
          ≠ "DUPLICATE_ENTRY" :=
  ⟨(claim2_amended blankPhones _ (by decide) (by decide)).1,
   (claim2_amended blankPhones _ (by decide) (by decide)).2.2.2⟩

/-! ## Claim C4 -/

/-- Claim C4: a grouped record at duplicate position above 1 is classified
`DUPLICATE_ENTRY` whatever evidence is merged into it - even evidence that
would satisfy rule 5 - provided rules 1-3 did not match; and a record at
position 1 is never classified `DUPLICATE_ENTRY`, whatever its evidence. -/
theorem claim4_duplicates_short_circuit (rs : List RawRecord) (row : Row)
    (ev : Evidence) (hmem : row ∈ groupAnnotate rs) :
    (∀ n, row.duplicate_position = some n → 1 < n →
      incompleteCond (setEvidence row ev) = false →
      termsDeclinedCond (setEvidence row ev) = false →
      noUrlCond (setEvidence row ev) = false →
      determine_qualification (setEvidence row ev)
        = ("DUPLICATE_ENTRY", "Duplicate entry #" ++ toString n ++ " for same phone number"))
    ∧ (row.duplicate_position = some 1 →
      (determine_qualification (setEvidence row ev)).1 ≠ "DUPLICATE_ENTRY") := by
  constructor
  · intro n hpos hn h1 h2 h3
    have hdupflag : row.is_duplicate = true :=
      groupAnnotate_pos_gt1_is_dup rs row n hmem hpos hn
    have hflag2 : (setEvidence row ev).is_duplicate = true := hdupflag
    have hposn : (setEvidence row ev).duplicate_position = some n := hpos
    have hcond : duplicateCond (setEvidence row ev) = true := by
      rw [duplicateCond, hflag2, hposn]
      simpa [optGt1] using hn
    unfold determine_qualification
    rw [if_neg (by simp [h1]), if_neg (by simp [h2]), if_neg (by simp [h3]),
        if_pos hcond]
    have hpos2 : (setEvidence row ev).duplicate_position = some n := hpos
    rw [hpos2]
    rfl
  · intro hpos hstat
    have hcond := dup_status_requires_cond _ hstat
    have hpos2 : (setEvidence row ev).duplicate_position = some 1 := hpos
    simp [duplicateCond, hpos2, optGt1] at hcond

/-- Witness for C4: the second record of `demo4` (duplicate position 2),
merged with evidence that would satisfy rule 5, is still classified
`DUPLICATE_ENTRY`. -/
theorem claim4_witness :
    determine_qualification (setEvidence ((groupAnnotate demo4).getD 1 defaultRow) hardEv)
      = ("DUPLICATE_ENTRY", "Duplicate entry #" ++ toString 2 ++ " for same phone number") :=
  (claim4_duplicates_short_circuit demo4 ((groupAnnotate demo4).getD 1 defaultRow)
      hardEv (by decide)).1 2 (by decide) (by decide) (by decide) (by decide) (by decide)

/-! ## Lemmas about the key order and group numbering -/

theorem strLtChars_trans : ∀ l1 l2 l3 : List Char,
    strLtChars l1 l2 = true → strLtChars l2 l3 = true → strLtChars l1 l3 = true := by
  intro l1
  induction l1 with
  | nil =>
    intro l2 l3 h1 h2
    cases l2 with
    | nil => exact absurd h1 (by simp [strLtChars])
    | cons b bs =>
      cases l3 with
      | nil => exact absurd h2 (by simp [strLtChars])
      | cons c cs => simp [strLtChars]
  | cons a as ih =>
    intro l2 l3 h1 h2
    cases l2 with
    | nil => exact absurd h1 (by simp [strLtChars])
    | cons b bs =>
      cases l3 with
      | nil => exact absurd h2 (by simp [strLtChars])
      | cons c cs =>
        simp only [strLtChars] at h1 h2 ⊢
        split_ifs at h1 h2 ⊢ <;> try omega
        all_goals try rfl
        all_goals exact ih bs cs h1 h2

theorem strLtChars_irrefl : ∀ l : List Char, strLtChars l l = false := by
  intro l
  induction l with
  | nil => rfl
  | cons a as ih => simp [strLtChars, ih]

theorem strLtChars_connex : ∀ l1 l2 : List Char,
    l1 ≠ l2 → strLtChars l1 l2 = true ∨ strLtChars l2 l1 = true := by
  intro l1
  induction l1 with
  | nil =>
    intro l2 hne
    cases l2 with
    | nil => exact absurd rfl hne
    | cons b bs => left; rfl
  | cons a as ih =>
    intro l2 hne
    cases l2 with
    | nil => right; rfl
    | cons b bs =>
      by_cases hab : a.toNat < b.toNat
      · left; simp [strLtChars, hab]
      by_cases hba : b.toNat < a.toNat
      · right; simp [strLtChars, hba]
      have hT : a.toNat = b.toNat := by omega
      have hchar : a = b := Char.ext (UInt32.ext hT)
      subst hchar
      have htail : as ≠ bs := by
        intro h; exact hne (by rw [h])
      rcases ih bs htail with h | h
      · left; simp [strLtChars, h]
      · right; simp [strLtChars, h]

theorem strLt_trans {p q r : String} (h1 : strLt p q = true) (h2 : strLt q r = true) :
    strLt p r = true :=
  strLtChars_trans p.toList q.toList r.toList h1 h2

theorem strLt_irrefl (p : String) : strLt p p = false :=
  strLtChars_irrefl p.toList

theorem strLt_connex {p q : String} (hne : p ≠ q) :
    strLt p q = true ∨ strLt q p = true := by
  refine strLtChars_connex p.toList q.toList ?_
  intro h
  apply hne
  cases p with
  | mk dp =>
    cases q with
    | mk dq =>
      simp only [String.toList] at h
      rw [h]

/-- The group rank is strictly monotone in the key order, over the present
keys. -/
theorem groupRank_lt_of_lt (phones : List (Option String)) {p q : String}
    (hp : p ∈ presentKeys phones) (hlt : strLt p q = true) :
    groupRank phones p < groupRank phones q := by
  have hsub : ((presentKeys phones).filter (fun x => strLt x p)).Sublist
      ((presentKeys phones).filter (fun x => strLt x q)) :=
    List.monotone_filter_right _ (fun x hx => strLt_trans hx hlt)
  have hle := hsub.length_le
  rcases Nat.lt_or_ge (groupRank phones p) (groupRank phones q) with h | h
  · exact h
  have heq : ((presentKeys phones).filter (fun x => strLt x p))
      = ((presentKeys phones).filter (fun x => strLt x q)) := by
    apply hsub.eq_of_length
    have : groupRank phones p = groupRank phones q := le_antisymm hle h
    exact this
  have hpq : p ∈ (presentKeys phones).filter (fun x => strLt x q) :=
    List.mem_filter.mpr ⟨hp, hlt⟩
  rw [← heq] at hpq
  have := (List.mem_filter.mp hpq).2
  rw [strLt_irrefl p] at this
  exact absurd this (by decide)

/-- Distinct present keys receive distinct group ranks. -/
theorem groupRank_inj (phones : List (Option String)) {p q : String}
    (hp : p ∈ presentKeys phones) (hq : q ∈ presentKeys phones)
    (h : groupRank phones p = groupRank phones q) : p = q := by
  by_contra hne
  rcases strLt_connex hne with hlt | hlt
  · exact absurd h (Nat.ne_of_lt (groupRank_lt_of_lt phones hp hlt))
  · exact absurd h.symm (Nat.ne_of_lt (groupRank_lt_of_lt phones hq hlt))

/-- Field facts for grouper rows: the group id is the rank of the phone
key, a present phone key occurs among the present keys, and a present
phone key forces a numeric position. -/
theorem groupAnnotate_fields (rs : List RawRecord) (row : Row)
    (hmem : row ∈ groupAnnotate rs) :
    row.duplicate_group
        = Option.map (groupRank (rs.map (fun r => r.phoneNumber))) row.phoneNumber
      ∧ (∀ s, row.phoneNumber = some s →
          s ∈ presentKeys (rs.map (fun r => r.phoneNumber)))
      ∧ (∀ s, row.phoneNumber = some s → ∃ m, row.duplicate_position = some m) := by
  obtain ⟨prev2, r, rest2, heq, happ⟩ := groupAnnotate_mem rs row hmem
  subst heq
  refine ⟨rfl, ?_, ?_⟩
  · intro s hs
    have hs' : r.phoneNumber = some s := hs
    have hmemphone : some s ∈ rs.map (fun r => r.phoneNumber) := by
      rw [← happ, ← hs']
      exact List.mem_append_right _ (List.mem_cons_self _ _)
    simp only [presentKeys, List.mem_dedup]
    exact List.mem_filterMap.mpr ⟨some s, hmemphone, rfl⟩
  · intro s hs
    have hs' : r.phoneNumber = some s := hs
    refine ⟨countPhone prev2 (some s) + 1, ?_⟩
    show dupPos prev2 r.phoneNumber = _
    rw [hs']
    rfl

/-! ## Lemmas about the sort comparison -/

set_option linter.unnecessarySeqFocus false in
theorem cellLt_trans {x y z : Option Nat} (h1 : cellLt x y = true)
    (h2 : cellLt y z = true) : cellLt x z = true := by
  cases x <;> cases y <;> cases z <;> simp_all [cellLt] <;> omega

set_option linter.unnecessarySeqFocus false in
theorem cellLt_trichotomy (x y : Option Nat) :
    cellLt x y = true ∨ x = y ∨ cellLt y x = true := by
  cases x <;> cases y <;> simp [cellLt] <;> omega

theorem rowLe_trans (a b c : Row) (h1 : rowLe a b = true) (h2 : rowLe b c = true) :
    rowLe a c = true := by
  simp only [rowLe, Bool.or_eq_true, Bool.and_eq_true, beq_iff_eq] at h1 h2 ⊢
  rcases h1 with h1 | ⟨hg1, hp1⟩
  · rcases h2 with h2 | ⟨hg2, hp2⟩
    · exact Or.inl (cellLt_trans h1 h2)
    · rw [hg2] at h1
      exact Or.inl h1
  · rcases h2 with h2 | ⟨hg2, hp2⟩
    · rw [hg1]
      exact Or.inl h2
    · refine Or.inr ⟨hg1.trans hg2, ?_⟩
      rcases hp1 with hp1 | hp1
      · rcases hp2 with hp2 | hp2
        · exact Or.inl (cellLt_trans hp1 hp2)
        · rw [hp2] at hp1
          exact Or.inl hp1
      · rcases hp2 with hp2 | hp2
        · rw [hp1]
          exact Or.inl hp2
        · exact Or.inr (hp1.trans hp2)

theorem rowLe_total (a b : Row) : (rowLe a b || rowLe b a) = true := by
  simp only [rowLe, Bool.or_eq_true, Bool.and_eq_true, beq_iff_eq]
  rcases cellLt_trichotomy a.duplicate_group b.duplicate_group with h | h | h
  · exact Or.inl (Or.inl h)
  · rcases cellLt_trichotomy a.duplicate_position b.duplicate_position with h2 | h2 | h2
    · exact Or.inl (Or.inr ⟨h, Or.inl h2⟩)
    · exact Or.inl (Or.inr ⟨h, Or.inr h2⟩)
    · exact Or.inr (Or.inr ⟨h.symm, Or.inl h2⟩)
  · exact Or.inr (Or.inl h)

theorem rowLe_some_right (a b : Row) (g : Nat) (h : rowLe a b = true)
    (hb : b.duplicate_group = some g) :
    ∃ ga, a.duplicate_group = some ga ∧ ga ≤ g := by
  simp only [rowLe, Bool.or_eq_true, Bool.and_eq_true, beq_iff_eq, hb] at h
  cases ha : a.duplicate_group with
  | none =>
    rw [ha] at h
    rcases h with h | ⟨h, _⟩
    · exact absurd h (by simp [cellLt])
    · exact absurd h (by simp)
  | some ga =>
    rw [ha] at h
    rcases h with h | ⟨h, _⟩
    · exact ⟨ga, rfl, le_of_lt (by simpa [cellLt] using h)⟩
    · exact ⟨ga, rfl, le_of_eq (by simpa using h)⟩

theorem rowLe_pos_le (a b : Row) (g x y : Nat) (h : rowLe a b = true)
    (hag : a.duplicate_group = some g) (hbg : b.duplicate_group = some g)
    (hax : a.duplicate_position = some x) (hby : b.duplicate_position = some y) :
    x ≤ y := by
  simp only [rowLe, Bool.or_eq_true, Bool.and_eq_true, beq_iff_eq,
    hag, hbg, hax, hby] at h
  rcases h with h | ⟨_, h | h⟩
  · exact absurd h (by simp [cellLt])
  · exact le_of_lt (by simpa [cellLt] using h)
  · exact le_of_eq (by simpa using h)

/-! ## The position run within one phone group -/

/-- Within the rows produced by `annotateAux`, the records holding a given
phone key `p`, taken in file order, carry consecutive positions continuing
the count of `p` in the cells already seen. -/
theorem annotateAux_filter_positions (phones : List (Option String)) (p : String) :
    ∀ (rest : List RawRecord) (prev : List (Option String)),
      ((annotateAux phones prev rest).filter
          (fun row => row.phoneNumber == some p)).map
          (fun row => row.duplicate_position)
        = (List.range (countPhone (rest.map (fun r => r.phoneNumber)) (some p))).map
            (fun j => some (countPhone prev (some p) + j + 1)) := by
  intro rest
  induction rest with
  | nil =>
    intro prev
    simp [annotateAux, countPhone]
  | cons r rest ih =>
    intro prev
    simp only [annotateAux, List.map_cons, countPhone_cons, nanEq_some]
    by_cases hr : (r.phoneNumber == some p) = true
    · have hr' : r.phoneNumber = some p := by simpa using hr
      rw [List.filter_cons_of_pos (by simpa [mkRow] using hr)]
      rw [List.map_cons, ih (prev ++ [r.phoneNumber])]
      rw [if_pos hr]
      have hprev : countPhone (prev ++ [r.phoneNumber]) (some p)
          = countPhone prev (some p) + 1 := by
        rw [countPhone_append, countPhone_cons, nanEq_some, if_pos hr]
        simp [countPhone]
      rw [hprev, Nat.add_comm 1, List.range_succ_eq_map, List.map_cons, List.map_map]
      congr 1
      · show dupPos prev r.phoneNumber = some (countPhone prev (some p) + 0 + 1)
        rw [hr']
        simp [dupPos]
      · apply List.map_congr_left
        intro j hj
        simp only [Function.comp, Option.some.injEq]
        omega
    · rw [List.filter_cons_of_neg (by simpa [mkRow] using hr)]
      rw [ih (prev ++ [r.phoneNumber])]
      rw [if_neg hr]
      have hprev : countPhone (prev ++ [r.phoneNumber]) (some p)
          = countPhone prev (some p) := by
        rw [countPhone_append, countPhone_cons, nanEq_some, if_neg hr]
        simp [countPhone]
      rw [hprev, Nat.zero_add]

/-- The positions of the group of phone `p`, in file order, are
`1, 2, ..., k` where `k` is the number of occurrences of `p`. -/
theorem groupAnnotate_filter_positions (rs : List RawRecord) (p : String) :
    ((groupAnnotate rs).filter (fun row => row.phoneNumber == some p)).map
        (fun row => row.duplicate_position)
      = (List.range (countPhone (rs.map (fun r => r.phoneNumber)) (some p))).map
          (fun j => some (j + 1)) := by
  rw [groupAnnotate, annotateAux_filter_positions]
  apply List.map_congr_left
  intro j hj
  simp [countPhone]

/-- The grouper drops and rewrites no record: projecting the raw columns
out of its output restores the input dataset. -/
theorem annotateAux_map_raw (phones : List (Option String)) :
    ∀ (rest : List RawRecord) (prev : List (Option String)),
      (annotateAux phones prev rest).map rowRaw = rest := by
  intro rest
  induction rest with
  | nil => intro prev; rfl
  | cons r rest ih =>
    intro prev
    simp only [annotateAux, List.map_cons, ih]
    rfl

theorem countP_pos_eq_count (X : List Row) (v : Option Nat) :
    X.countP (fun row => row.duplicate_position == v)
      = (X.map (fun row => row.duplicate_position)).count v := by
  rw [List.count_eq_countP, List.countP_map]
  rfl

theorem count_some_one_range :
    ∀ k : Nat, 0 < k →
      ((List.range k).map (fun j => (some (j + 1) : Option Nat))).count (some 1) = 1 := by
  intro k hk
  rw [List.count_eq_countP, List.countP_map]
  induction k with
  | zero => exact absurd hk (by decide)
  | succ k ih =>
    rw [List.range_succ, List.countP_append]
    cases Nat.eq_zero_or_pos k with
    | inl h0 =>
      subst h0
      rfl
    | inr hpos =>
      rw [ih hpos]
      have : List.countP ((fun x => x == some 1) ∘ fun j => (some (j + 1) : Option Nat)) [k] = 0 := by
        simp only [List.countP_cons, List.countP_nil, Function.comp]
        have h1 : ((some (k + 1) : Option Nat) == some 1) = false := by
          simp
          omega
        simp [h1]
      rw [this]

theorem cellLt_irrefl (x : Option Nat) : cellLt x x = false := by
  cases x <;> simp [cellLt]

theorem sortRows_perm (l : List Row) : (sortRows l).Perm l :=
  List.mergeSort_perm l rowLe

theorem sortRows_pairwise (l : List Row) :
    List.Pairwise (fun a b => rowLe a b = true) (sortRows l) :=
  List.sorted_mergeSort rowLe_trans rowLe_total l

/-- Facts about a sorted-output row holding phone key `p`. -/
theorem sortRows_mem_facts (rs : List RawRecord) (p : String) (row : Row)
    (hmem : row ∈ sortRows (groupAnnotate rs))
    (hp : row.phoneNumber = some p) :
    row.duplicate_group = some (groupRank (rs.map (fun r => r.phoneNumber)) p)
      ∧ (∃ m, row.duplicate_position = some m)
      ∧ p ∈ presentKeys (rs.map (fun r => r.phoneNumber)) := by
  have hmem2 : row ∈ groupAnnotate rs := (sortRows_perm _).subset hmem
  obtain ⟨hg, hpres, hpos⟩ := groupAnnotate_fields rs row hmem2
  refine ⟨?_, hpos p hp, hpres p hp⟩
  rw [hg, hp]
  rfl

/-- After the grouped sort, the rows of phone key `p` appear exactly as in
the grouper output: same rows, same (file) order. -/
theorem sortRows_filter_group (rs : List RawRecord) (p : String) :
    (sortRows (groupAnnotate rs)).filter (fun row => row.phoneNumber == some p)
      = (groupAnnotate rs).filter (fun row => row.phoneNumber == some p) := by
  have hperm :
      ((sortRows (groupAnnotate rs)).filter (fun row => row.phoneNumber == some p)).Perm
        ((groupAnnotate rs).filter (fun row => row.phoneNumber == some p)) :=
    (sortRows_perm (groupAnnotate rs)).filter _
  have hmapA := groupAnnotate_filter_positions rs p
  have hpairA : List.Pairwise (fun x y : Option Nat => cellLt x y = true)
      (((groupAnnotate rs).filter (fun row => row.phoneNumber == some p)).map
        (fun row => row.duplicate_position)) := by
    rw [hmapA]
    refine List.pairwise_map.mpr ?_
    refine (List.pairwise_lt_range _).imp ?_
    intro i j hij
    simp only [cellLt]
    simpa using by omega
  have hsortedA : List.Pairwise (fun a b : Row =>
      cellLt a.duplicate_position b.duplicate_position = true)
      ((groupAnnotate rs).filter (fun row => row.phoneNumber == some p)) :=
    List.pairwise_map.mp hpairA
  have hnodupA : (((groupAnnotate rs).filter
      (fun row => row.phoneNumber == some p)).map
        (fun row => row.duplicate_position)).Nodup := by
    rw [hmapA]
    refine List.Nodup.map ?_ (List.nodup_range _)
    intro a b hab
    simpa using hab
  have hnodupB : (((sortRows (groupAnnotate rs)).filter
      (fun row => row.phoneNumber == some p)).map
        (fun row => row.duplicate_position)).Nodup :=
    ((hperm.map _).nodup_iff).mpr hnodupA
  have hneB : List.Pairwise (fun a b : Row =>
      a.duplicate_position ≠ b.duplicate_position)
      ((sortRows (groupAnnotate rs)).filter (fun row => row.phoneNumber == some p)) :=
    List.pairwise_map.mp hnodupB
  have hleB : List.Pairwise (fun a b : Row => rowLe a b = true)
      ((sortRows (groupAnnotate rs)).filter (fun row => row.phoneNumber == some p)) :=
    (sortRows_pairwise (groupAnnotate rs)).sublist (List.filter_sublist _)
  have hsortedB : List.Pairwise (fun a b : Row =>
      cellLt a.duplicate_position b.duplicate_position = true)
      ((sortRows (groupAnnotate rs)).filter (fun row => row.phoneNumber == some p)) := by
    refine List.Pairwise.imp_of_mem ?_ (hleB.and hneB)
    intro a b ha hb hab
    have hpa : a.phoneNumber = some p := by
      simpa using (List.mem_filter.mp ha).2
    have hpb : b.phoneNumber = some p := by
      simpa using (List.mem_filter.mp hb).2
    obtain ⟨hga, ⟨x, hxa⟩, -⟩ :=
      sortRows_mem_facts rs p a (List.mem_of_mem_filter ha) hpa
    obtain ⟨hgb, ⟨y, hyb⟩, -⟩ :=
      sortRows_mem_facts rs p b (List.mem_of_mem_filter hb) hpb
    have hxy : x ≤ y := rowLe_pos_le a b _ x y hab.1 hga hgb hxa hyb
    have hne : x ≠ y := by
      intro h
      exact hab.2 (by rw [hxa, hyb, h])
    rw [hxa, hyb]
    simp only [cellLt]
    simpa using by omega
  haveI : IsAntisymm Row (fun a b : Row =>
      cellLt a.duplicate_position b.duplicate_position = true) := by
    constructor
    intro a b h1 h2
    have := cellLt_trans h1 h2
    rw [cellLt_irrefl] at this
    exact absurd this (by decide)
  exact List.eq_of_perm_of_sorted hperm hsortedB hsortedA

/-- After the grouped sort, the rows of one phone key occupy contiguous
positions: any row lying between two rows of key `p` also has key `p`. -/
theorem sortRows_group_contiguous (rs : List RawRecord) (p : String)
    (i j k : Fin (sortRows (groupAnnotate rs)).length)
    (hij : i ≤ j) (hjk : j ≤ k)
    (hi : ((sortRows (groupAnnotate rs)).get i).phoneNumber = some p)
    (hk : ((sortRows (groupAnnotate rs)).get k).phoneNumber = some p) :
    ((sortRows (groupAnnotate rs)).get j).phoneNumber = some p := by
  rcases eq_or_lt_of_le hij with heq | hij'
  · rw [← heq]
    exact hi
  rcases eq_or_lt_of_le hjk with heq | hjk'
  · rw [heq]
    exact hk
  have hPW := List.pairwise_iff_get.mp (sortRows_pairwise (groupAnnotate rs))
  have h_ij : rowLe ((sortRows (groupAnnotate rs)).get i)
      ((sortRows (groupAnnotate rs)).get j) = true := hPW i j hij'
  have h_jk : rowLe ((sortRows (groupAnnotate rs)).get j)
      ((sortRows (groupAnnotate rs)).get k) = true := hPW j k hjk'
  obtain ⟨hgi, -, hpresi⟩ := sortRows_mem_facts rs p _ (List.get_mem _ i.1 i.2) hi
  obtain ⟨hgk, -, -⟩ := sortRows_mem_facts rs p _ (List.get_mem _ k.1 k.2) hk
  obtain ⟨gj, hgj, hle1⟩ := rowLe_some_right _ _ _ h_jk hgk
  obtain ⟨gi2, hgi2, hle2⟩ := rowLe_some_right _ _ _ h_ij hgj
  have hgi2' : groupRank (rs.map (fun r => r.phoneNumber)) p = gi2 := by
    rw [hgi] at hgi2
    exact Option.some.inj hgi2
  have hgj' : gj = groupRank (rs.map (fun r => r.phoneNumber)) p := by
    omega
  have hmemj : (sortRows (groupAnnotate rs)).get j ∈ groupAnnotate rs :=
    (sortRows_perm _).subset (List.get_mem _ j.1 j.2)
  obtain ⟨hgj_eq, hpresj, -⟩ := groupAnnotate_fields rs _ hmemj
  cases hq : ((sortRows (groupAnnotate rs)).get j).phoneNumber with
  | none =>
    rw [hgj_eq, hq] at hgj
    exact absurd hgj (by simp)
  | some q =>
    rw [hgj_eq, hq] at hgj
    have hrank : groupRank (rs.map (fun r => r.phoneNumber)) q = gj :=
      Option.some.inj hgj
    have hqp : q = p :=
      groupRank_inj (rs.map (fun r => r.phoneNumber)) (hpresj q hq) hpresi
        (by rw [hrank, hgj'])
    rw [hqp]

/-! ## Claim C9 -/

/-- Claim C9: the grouper drops no record (projecting the raw columns of
its output restores the dataset, and the sort only permutes rows); within
every set of records sharing a phone number the positions are the
contiguous run 1, 2, ... in file order, with exactly one member at
position 1; and sorting by `(duplicate_group, duplicate_position)` keeps
the members of each group together - contiguous - and in file order. -/
theorem claim9_grouper_invariants (rs : List RawRecord) :
    ((groupAnnotate rs).map rowRaw = rs)
    ∧ (sortRows (groupAnnotate rs)).Perm (groupAnnotate rs)
    ∧ (∀ p : String,
        ((groupAnnotate rs).filter (fun row => row.phoneNumber == some p)).map
            (fun row => row.duplicate_position)
          = (List.range (countPhone (rs.map (fun r => r.phoneNumber)) (some p))).map
              (fun j => some (j + 1)))
    ∧ (∀ p : String, 0 < countPhone (rs.map (fun r => r.phoneNumber)) (some p) →
        ((groupAnnotate rs).filter (fun row => row.phoneNumber == some p)).countP
            (fun row => row.duplicate_position == some 1) = 1)
    ∧ (∀ p : String,
        (sortRows (groupAnnotate rs)).filter (fun row => row.phoneNumber == some p)
          = (groupAnnotate rs).filter (fun row => row.phoneNumber == some p))
    ∧ (∀ (p : String) (i j k : Fin (sortRows (groupAnnotate rs)).length),
        i ≤ j → j ≤ k →
        ((sortRows (groupAnnotate rs)).get i).phoneNumber = some p →
        ((sortRows (groupAnnotate rs)).get k).phoneNumber = some p →
        ((sortRows (groupAnnotate rs)).get j).phoneNumber = some p) := by
  refine ⟨?_, sortRows_perm _, fun p => groupAnnotate_filter_positions rs p, ?_,
    fun p => sortRows_filter_group rs p,
    fun p i j k hij hjk hi hk => sortRows_group_contiguous rs p i j k hij hjk hi hk⟩
  · rw [groupAnnotate]
    exact annotateAux_map_raw _ rs []
  · intro p hpos
    rw [countP_pos_eq_count, groupAnnotate_filter_positions]
    exact count_some_one_range _ hpos

/-- Witness for C9 at `c9Demo`, whose phone column is 222, 111, 222: the
group of phone 222 has exactly one member at position 1. -/
theorem claim9_witness :
    0 < countPhone (c9Demo.map (fun r => r.phoneNumber)) (some "222")
      ∧ ((groupAnnotate c9Demo).filter
            (fun row => row.phoneNumber == some "222")).countP
            (fun row => row.duplicate_position == some 1) = 1 :=
  ⟨by decide, (claim9_grouper_invariants c9Demo).2.2.2.1 "222" (by decide)⟩
